import Mathlib

/-!
Verification of the MOT lookup relay (`server.js`, `test-scopes.js`).

The embedding follows the source: the token cache is the mutable cell
`tokenCache`, `getAccessToken` / `getAccessTokenAlternative` are the token
acquirers, `validateRegistration` the format check, `motLookup` the
`/api/mot/:registration` handler, and `scopeApiTest` the per-scope API probe
of `/test-scopes/:registration` (lines 91-167 of `test-scopes.js`).
Network effects are modelled by oracles (`AxiosResult` values supplied as
inputs) plus traces of the requests the handler builds.  Timestamps are
integer milliseconds; JavaScript truthiness and `NaN` arithmetic are
modelled explicitly where the source relies on them.
-/

namespace MotApi

/-- A JavaScript number that may be `NaN` (arising from `undefined * 1000`). -/
inductive JsNum where
  | num (i : Int)
  | nan
deriving DecidableEq, Repr

/-- JS truthiness of a number: `0` and `NaN` are falsy. -/
def jsNumTruthy : JsNum → Bool
  | .num i => i ≠ 0
  | .nan => false

/-- JS comparison `a < b` where `b` may be `NaN` (always false). -/
def jsLtNum (a : Int) : JsNum → Bool
  | .num b => a < b
  | .nan => false

/-- JS truthiness of a possibly-null/undefined string: absent and `""` are falsy. -/
def optTruthy : Option String → Bool
  | some s => s ≠ ""
  | none => false

/-- JS `a || b` on optional strings (empty string is falsy and falls through). -/
def jsOrOpt (a b : Option String) : Option String :=
  match a with
  | some s => if s = "" then b else some s
  | none => b

/-- JS `a || b` with a plain-string default. -/
def jsOrStr (a : Option String) (b : String) : String :=
  match a with
  | some s => if s = "" then b else s
  | none => b

/-- JS string coercion of a possibly-undefined value (template literals). -/
def jsStr : Option String → String
  | some s => s
  | none => "undefined"

/-- The `tokenCache` cell of `server.js` (lines 33-36): both fields start null. -/
structure TokenCache where
  accessToken : Option String
  expiresAt : Option JsNum
deriving DecidableEq, Repr

/-- `{ accessToken: null, expiresAt: null }`. -/
def emptyTokenCache : TokenCache := ⟨none, none⟩

/-- The cache-validity test of `server.js` line 43:
`tokenCache.accessToken && tokenCache.expiresAt && now < tokenCache.expiresAt`. -/
def cacheHit (now : Int) (c : TokenCache) : Bool :=
  match c.accessToken, c.expiresAt with
  | some t, some e => decide (t ≠ "") && jsNumTruthy e && jsLtNum now e
  | _, _ => false

/-- The Token Store's `get()`: the cached token, only while the line-43 test passes. -/
def tokenGet (now : Int) (c : TokenCache) : Option String :=
  if cacheHit now c then c.accessToken else none

/-- The Token Store's `set(value, ttlSeconds)`, from `server.js` lines 73-77:
`expiresAt = now + expires_in*1000 - 60000` (times in milliseconds,
60-second safety margin). -/
def tokenSet (now : Int) (value : String) (ttlSeconds : Int) : TokenCache :=
  { accessToken := some value
    expiresAt := some (JsNum.num (now + ttlSeconds * 1000 - 60000)) }

/-- Fields of an upstream JSON error body that the handlers read. -/
structure ErrData where
  error : Option String
  error_description : Option String
  message : Option String
deriving DecidableEq, Repr

/-- Body of a token-endpoint 2xx response; either field may be absent. -/
structure TokenBody where
  access_token : Option String
  expires_in : Option Int
deriving DecidableEq, Repr

/-- Outcome of one axios call: resolve on 2xx, reject with a response on other
statuses, reject with code `ECONNABORTED` on timeout, reject without a
response on other network errors. -/
inductive AxiosResult (β : Type) where
  | ok (status : Nat) (body : β)
  | httpError (status : Nat) (statusText : String) (body : Option ErrData)
  | timeout
  | netError (msg : String)
deriving DecidableEq, Repr

/-- A thrown JS error as the catch blocks distinguish them:
a plain `new Error(msg)` has no `.response` and no `.code`. -/
inductive JsError where
  | plainError (msg : String)
  | axiosHttp (status : Nat) (statusText : String) (body : Option ErrData)
  | axiosTimeout
  | axiosNet (msg : String)
deriving DecidableEq, Repr

/-- `AUTH_CONFIG` (`server.js` lines 24-30): env vars may be missing. -/
structure Config where
  clientId : Option String
  clientSecret : Option String
  apiKey : Option String
  tokenUrl : Option String
  scope : String
deriving DecidableEq, Repr

/-- The credential check of `server.js` line 165: all four values truthy. -/
def configOk (cfg : Config) : Bool :=
  optTruthy cfg.clientId && optTruthy cfg.clientSecret &&
    optTruthy cfg.apiKey && optTruthy cfg.tokenUrl

/-- Shape of a token-endpoint POST as built by the source. -/
structure TokenRequest where
  url : Option String
  basicAuth : Option (Option String × Option String)
  grant_type : String
  client_id : Option String
  client_secret : Option String
  scope : String
deriving DecidableEq, Repr

/-- The standard exchange (`server.js` lines 56-70): credentials as form fields. -/
def standardTokenRequest (cfg : Config) : TokenRequest :=
  { url := cfg.tokenUrl
    basicAuth := none
    grant_type := "client_credentials"
    client_id := cfg.clientId
    client_secret := cfg.clientSecret
    scope := cfg.scope }

/-- The alternative exchange (`server.js` lines 104-119): credentials via the
axios `auth` option (HTTP Basic), not in the form body. -/
def altTokenRequest (cfg : Config) : TokenRequest :=
  { url := cfg.tokenUrl
    basicAuth := some (cfg.clientId, cfg.clientSecret)
    grant_type := "client_credentials"
    client_id := none
    client_secret := none
    scope := cfg.scope }

/-- `expires_in * 1000` (NaN when `expires_in` is absent). -/
def jsExpiryMs : Option Int → JsNum
  | some n => .num (n * 1000)
  | none => .nan

/-- `now + expiresIn - 60000` (`server.js` line 76). -/
def jsAddExpiry (now : Int) : JsNum → JsNum
  | .num m => .num (now + m - 60000)
  | .nan => .nan

/-- Message of `server.js` line 93:
`Authentication failed: STATUS - (data?.error || statusText)`. -/
def tokenErrMessage (st : Nat) (stText : String) (d : Option ErrData) : String :=
  "Authentication failed: " ++ toString st ++ " - " ++
    jsOrStr (d.bind ErrData.error) stText

/-- Result of the token-acquisition step: the value returned or the error
thrown, the cache left behind, and the token-endpoint requests issued. -/
inductive TokenResult where
  | ok (tok : Option String)
  | thrown (e : JsError)
deriving DecidableEq, Repr

structure TokenStepOut where
  result : TokenResult
  cache : TokenCache
  calls : List TokenRequest
deriving DecidableEq, Repr

/-- `getAccessToken` (`server.js` lines 39-97): return the cached token when
line 43's test passes (no network call); otherwise POST the standard exchange:
on 2xx cache `{access_token, now + expires_in*1000 - 60000}` and return
`access_token`; on any failure clear the cache and throw a plain `Error`. -/
def getAccessToken (now : Int) (c : TokenCache) (cfg : Config)
    (resp : AxiosResult TokenBody) : TokenStepOut :=
  if cacheHit now c then
    { result := .ok c.accessToken, cache := c, calls := [] }
  else
    match resp with
    | .ok _ body =>
        { result := .ok body.access_token
          cache := { accessToken := body.access_token
                     expiresAt := some (jsAddExpiry now (jsExpiryMs body.expires_in)) }
          calls := [standardTokenRequest cfg] }
    | .httpError st stText d =>
        { result := .thrown (.plainError (tokenErrMessage st stText d))
          cache := emptyTokenCache
          calls := [standardTokenRequest cfg] }
    | .timeout =>
        { result := .thrown (.plainError "Failed to authenticate with DVSA API")
          cache := emptyTokenCache
          calls := [standardTokenRequest cfg] }
    | .netError _ =>
        { result := .thrown (.plainError "Failed to authenticate with DVSA API")
          cache := emptyTokenCache
          calls := [standardTokenRequest cfg] }

/-- `getAccessTokenAlternative` (`server.js` lines 100-133): no cache check;
Basic-auth exchange; on 2xx cache with the same 60000 ms margin; on failure
rethrow the axios error unchanged (the cache is left as it was). -/
def getAccessTokenAlternative (now : Int) (cfg : Config) (c : TokenCache)
    (resp : AxiosResult TokenBody) : TokenStepOut :=
  match resp with
  | .ok _ body =>
      { result := .ok body.access_token
        cache := { accessToken := body.access_token
                   expiresAt := some (jsAddExpiry now (jsExpiryMs body.expires_in)) }
        calls := [altTokenRequest cfg] }
  | .httpError st stText d =>
      { result := .thrown (.axiosHttp st stText d), cache := c
        calls := [altTokenRequest cfg] }
  | .timeout =>
      { result := .thrown .axiosTimeout, cache := c, calls := [altTokenRequest cfg] }
  | .netError m =>
      { result := .thrown (.axiosNet m), cache := c, calls := [altTokenRequest cfg] }

/-- ASCII fragment of JS `String.prototype.toUpperCase` (the handlers only
meet ASCII registrations). -/
def jsToUpperChar (c : Char) : Char :=
  if 'a' ≤ c && c ≤ 'z' then Char.ofNat (c.toNat - 32) else c

/-- ASCII fragment of the regex class `\s` used by `.replace(/\s/g, '')`. -/
def jsWhitespaceChar (c : Char) : Bool :=
  c = ' ' || c = '\t' || c = '\n' || c = '\r' ||
    c = Char.ofNat 11 || c = Char.ofNat 12

/-- `req.params.registration.toUpperCase().replace(/\s/g, '')`
(`server.js` line 151). -/
def normalizeRegistration (s : String) : String :=
  String.mk ((s.data.map jsToUpperChar).filter (fun c => !jsWhitespaceChar c))

/-- One `[class]{lo,hi}` piece of an anchored registration regex. -/
structure RegexPiece where
  cls : Char → Bool
  lo : Nat
  hi : Nat

def upperAZ (c : Char) : Bool := 'A' ≤ c && c ≤ 'Z'

def digit09 (c : Char) : Bool := '0' ≤ c && c ≤ '9'

/-- Anchored match of a sequence of class repetitions against the whole
string, trying every repetition count in `[lo, hi]` (the source's regexes
alternate disjoint classes, so this equals the regex semantics). -/
def matchPieces : List RegexPiece → List Char → Bool
  | [], l => l.isEmpty
  | p :: ps, l =>
      (List.range (p.hi + 1 - p.lo)).any fun i =>
        let k := p.lo + i
        decide ((l.take k).length = k) && (l.take k).all p.cls &&
          matchPieces ps (l.drop k)

/-- The five UK patterns of `validateRegistration` (`server.js` lines 138-144). -/
def ukRegPatterns : List (List RegexPiece) :=
  [ [⟨upperAZ, 2, 2⟩, ⟨digit09, 2, 2⟩, ⟨upperAZ, 3, 3⟩],
    [⟨upperAZ, 1, 1⟩, ⟨digit09, 1, 3⟩, ⟨upperAZ, 3, 3⟩],
    [⟨upperAZ, 3, 3⟩, ⟨digit09, 1, 3⟩, ⟨upperAZ, 1, 1⟩],
    [⟨digit09, 1, 4⟩, ⟨upperAZ, 1, 3⟩],
    [⟨upperAZ, 1, 3⟩, ⟨digit09, 1, 4⟩] ]

/-- `validateRegistration` (`server.js` lines 136-147). -/
def validateRegistration (reg : String) : Bool :=
  ukRegPatterns.any fun p => matchPieces p reg.data

/-- Shape of a GET to the vehicle-data endpoint as built by the source. -/
structure UpstreamRequest where
  url : String
  authorization : String
  xApiKey : Option String
  accept : String
  userAgent : Option String
  registration : String
deriving DecidableEq, Repr

/-- The upstream GET of `server.js` lines 192-205. -/
def mkUpstreamRequest (token : Option String) (apiKey : Option String)
    (reg : String) : UpstreamRequest :=
  { url := "https://beta.check-mot.service.gov.uk/trade/vehicles/mot-tests"
    authorization := "Bearer " ++ jsStr token
    xApiKey := apiKey
    accept := "application/json+v6"
    userAgent := some "MOT-API-Client/1.0"
    registration := reg }

/-- The JSON body the handler sends back; absent fields are `none`
(`JSON.stringify` drops `undefined` fields). -/
structure RespBody where
  success : Option Bool := none
  data : Option String := none
  error : Option String := none
  message : Option String := none
  details : Option String := none
  registration : Option String := none
  timestamp : Option String := none
deriving DecidableEq, Repr

/-- `server.js` lines 157-161. -/
def invalidRegBody (reg : String) : RespBody :=
  { error := some "Invalid registration format"
    registration := some reg
    message := some "Please enter a valid UK registration number" }

/-- `server.js` lines 167-170 (note: no registration field). -/
def configErrorBody : RespBody :=
  { error := some "API credentials not configured"
    message := some "Server configuration error. Please contact administrator." }

/-- `server.js` lines 210-215. -/
def successBody (d : String) (reg iso : String) : RespBody :=
  { success := some true
    data := some d
    registration := some reg
    timestamp := some iso }

/-- `server.js` lines 226-230. -/
def notFoundBody (reg : String) : RespBody :=
  { error := some "Vehicle not found"
    registration := some reg
    message := some "No MOT data found for this registration number" }

/-- `server.js` lines 236-241: note the `details` field is
`errorData?.error_description || errorData?.message || "Unauthorized access"`,
taken from the upstream error body. -/
def authFailedBody (reg : String) (d : Option ErrData) : RespBody :=
  { error := some "Authentication failed"
    message := some "API authentication error. Please try again."
    details := some (jsOrStr
      (jsOrOpt (d.bind ErrData.error_description) (d.bind ErrData.message))
      "Unauthorized access")
    registration := some reg }

/-- `server.js` lines 245-249. -/
def rateLimitBody (reg : String) : RespBody :=
  { error := some "Rate limit exceeded"
    message := some "Too many requests. Please wait a moment and try again."
    registration := some reg }

/-- `server.js` lines 253-258. -/
def apiFailedBody (reg : String) (st : Nat) (d : Option ErrData) : RespBody :=
  { error := some "API request failed"
    message := some ("DVSA API returned status " ++ toString st)
    details := jsOrOpt (d.bind ErrData.message) (d.bind ErrData.error)
    registration := some reg }

/-- `server.js` lines 263-267. -/
def timeoutBody (reg : String) : RespBody :=
  { error := some "Request timeout"
    message := some "The request took too long to complete. Please try again."
    registration := some reg }

/-- `server.js` lines 271-276; `details` is `error.message`. -/
def internalErrorBody (reg m : String) : RespBody :=
  { error := some "Internal server error"
    message := some "An unexpected error occurred while fetching MOT data"
    details := some m
    registration := some reg }

/-- Everything observable about one run of the lookup handler: the HTTP status
and body sent, the final token cache, and the network requests issued. -/
structure HandlerOutcome where
  status : Nat
  body : RespBody
  cache : TokenCache
  tokenCalls : List TokenRequest
  upstreamCalls : List UpstreamRequest
deriving DecidableEq, Repr

/-- The catch block of `server.js` lines 217-277: for errors with a response,
404 / 401-or-403 (cache cleared) / 429 / other in that order; timeouts
(`ECONNABORTED`, no response) give 408; everything else the generic 500. -/
def catchBlock (reg : String) (e : JsError) (c : TokenCache)
    (tcalls : List TokenRequest) (ucalls : List UpstreamRequest) : HandlerOutcome :=
  match e with
  | .axiosHttp st _ d =>
      if st = 404 then ⟨404, notFoundBody reg, c, tcalls, ucalls⟩
      else if st = 401 || st = 403 then
        ⟨500, authFailedBody reg d, emptyTokenCache, tcalls, ucalls⟩
      else if st = 429 then ⟨429, rateLimitBody reg, c, tcalls, ucalls⟩
      else ⟨500, apiFailedBody reg st d, c, tcalls, ucalls⟩
  | .axiosTimeout => ⟨408, timeoutBody reg, c, tcalls, ucalls⟩
  | .axiosNet m => ⟨500, internalErrorBody reg m, c, tcalls, ucalls⟩
  | .plainError m => ⟨500, internalErrorBody reg m, c, tcalls, ucalls⟩

/-- The single upstream GET of the main handler (`server.js` lines 192-215)
and the hand-off of its failure to the catch block. -/
def doUpstream (reg : String) (cfg : Config) (tok : Option String) (iso : String)
    (c : TokenCache) (tcalls : List TokenRequest)
    (upstream : Bool → AxiosResult String) : HandlerOutcome :=
  let req := mkUpstreamRequest tok cfg.apiKey reg
  match upstream true with
  | .ok _ d => ⟨200, successBody d reg iso, c, tcalls, [req]⟩
  | .httpError st stText d => catchBlock reg (.axiosHttp st stText d) c tcalls [req]
  | .timeout => catchBlock reg .axiosTimeout c tcalls [req]
  | .netError m => catchBlock reg (.axiosNet m) c tcalls [req]

/-- The `/api/mot/:registration` handler (`server.js` lines 150-278):
normalize, validate, check configuration, acquire a token (standard first,
alternative on failure, rethrowing the original error when both fail), then
the single upstream GET.  The `upstream` oracle is indexed by whether the
`x-api-key` header is present; the main handler only ever issues the
with-key request. -/
def motLookup (rawReg : String) (cfg : Config) (c0 : TokenCache) (now : Int)
    (iso : String) (tokenResp altTokenResp : AxiosResult TokenBody)
    (upstream : Bool → AxiosResult String) : HandlerOutcome :=
  let reg := normalizeRegistration rawReg
  if validateRegistration reg = false then
    ⟨400, invalidRegBody reg, c0, [], []⟩
  else if configOk cfg = false then
    ⟨500, configErrorBody, c0, [], []⟩
  else
    let s1 := getAccessToken now c0 cfg tokenResp
    match s1.result with
    | .ok tok => doUpstream reg cfg tok iso s1.cache s1.calls upstream
    | .thrown e1 =>
        let s2 := getAccessTokenAlternative now cfg s1.cache altTokenResp
        match s2.result with
        | .ok tok => doUpstream reg cfg tok iso s2.cache (s1.calls ++ s2.calls) upstream
        | .thrown _ => catchBlock reg e1 s2.cache (s1.calls ++ s2.calls) []

/-- One entry of the per-scope `results` record of `test-scopes.js`. -/
structure KeyAttemptRec where
  success : Bool
  status : Option Nat
  errorMsg : Option String
deriving DecidableEq, Repr

/-- The upstream GET of `test-scopes.js` lines 97-109 / 136-147
(no `User-Agent` header; the retry omits `x-api-key`). -/
def mkScopeRequest (tok : Option String) (apiKey : Option String)
    (reg : String) : UpstreamRequest :=
  { url := "https://beta.check-mot.service.gov.uk/trade/vehicles/mot-tests"
    authorization := "Bearer " ++ jsStr tok
    xApiKey := apiKey
    accept := "application/json+v6"
    userAgent := none
    registration := reg }

/-- `error.response?.status` of a failed axios call. -/
def responseStatus : AxiosResult String → Option Nat
  | .ok st _ => some st
  | .httpError st _ _ => some st
  | .timeout => none
  | .netError _ => none

/-- `error.message` of a failed axios call. -/
def axiosErrMessage : AxiosResult String → String
  | .ok _ _ => ""
  | .httpError st _ _ => "Request failed with status code " ++ toString st
  | .timeout => "timeout of 10000ms exceeded"
  | .netError m => m

/-- The record stored for the no-key retry
(`test-scopes.js` lines 149-164). -/
def noKeyAttemptRec : AxiosResult String → KeyAttemptRec
  | .ok st _ => ⟨true, some st, none⟩
  | e => ⟨false, responseStatus e, some (axiosErrMessage e)⟩

/-- Outcome of the per-scope API probe: the `withApiKey` record, the
`withoutApiKey` record when the retry ran, and the GETs issued. -/
structure ScopeApiOut where
  withApiKey : KeyAttemptRec
  withoutApiKey : Option KeyAttemptRec
  calls : List UpstreamRequest
deriving DecidableEq, Repr

/-- The API-testing step of `/test-scopes/:registration`
(`test-scopes.js` lines 91-167): GET with the `x-api-key` header; only when
that fails with `error.response?.status === 403` is the identical GET issued
once more without the key, and its outcome recorded as `withoutApiKey`. -/
def scopeApiTest (tok : Option String) (apiKey : Option String) (reg : String)
    (upstream : Bool → AxiosResult String) : ScopeApiOut :=
  let req1 := mkScopeRequest tok apiKey reg
  match upstream true with
  | .ok st _ => ⟨⟨true, some st, none⟩, none, [req1]⟩
  | .httpError st _ _ =>
      let r1 : KeyAttemptRec :=
        ⟨false, some st, some ("Request failed with status code " ++ toString st)⟩
      if st = 403 then
        ⟨r1, some (noKeyAttemptRec (upstream false)), [req1, mkScopeRequest tok none reg]⟩
      else ⟨r1, none, [req1]⟩
  | .timeout => ⟨⟨false, none, some "timeout of 10000ms exceeded"⟩, none, [req1]⟩
  | .netError m => ⟨⟨false, none, some m⟩, none, [req1]⟩

/-! ## Helper lemmas -/

theorem catchBlock_upstreamCalls (reg : String) (e : JsError) (c : TokenCache)
    (t : List TokenRequest) (u : List UpstreamRequest) :
    (catchBlock reg e c t u).upstreamCalls = u := by
  cases e with
  | axiosHttp st sT d => simp only [catchBlock]; split_ifs <;> rfl
  | axiosTimeout => rfl
  | axiosNet m => rfl
  | plainError m => rfl

theorem catchBlock_tokenCalls (reg : String) (e : JsError) (c : TokenCache)
    (t : List TokenRequest) (u : List UpstreamRequest) :
    (catchBlock reg e c t u).tokenCalls = t := by
  cases e with
  | axiosHttp st sT d => simp only [catchBlock]; split_ifs <;> rfl
  | axiosTimeout => rfl
  | axiosNet m => rfl
  | plainError m => rfl

/-- On a 401 or a 403 the catch block clears the token cache and sends the
500 "Authentication failed" body. -/
theorem catchBlock_auth {st : Nat} (hst : st = 401 ∨ st = 403) (reg sT : String)
    (d : Option ErrData) (c : TokenCache) (t : List TokenRequest)
    (u : List UpstreamRequest) :
    catchBlock reg (.axiosHttp st sT d) c t u =
      ⟨500, authFailedBody reg d, emptyTokenCache, t, u⟩ := by
  rcases hst with h | h <;> subst h <;> rfl

theorem doUpstream_ok {upstream : Bool → AxiosResult String} {st : Nat} {d : String}
    (reg : String) (cfg : Config) (tok : Option String) (iso : String)
    (c : TokenCache) (t : List TokenRequest)
    (h : upstream true = .ok st d) :
    doUpstream reg cfg tok iso c t upstream =
      ⟨200, successBody d reg iso, c, t, [mkUpstreamRequest tok cfg.apiKey reg]⟩ := by
  simp [doUpstream, h]

theorem doUpstream_timeout {upstream : Bool → AxiosResult String}
    (reg : String) (cfg : Config) (tok : Option String) (iso : String)
    (c : TokenCache) (t : List TokenRequest)
    (h : upstream true = .timeout) :
    doUpstream reg cfg tok iso c t upstream =
      catchBlock reg .axiosTimeout c t [mkUpstreamRequest tok cfg.apiKey reg] := by
  simp [doUpstream, h]

theorem doUpstream_upstreamCalls (reg : String) (cfg : Config) (tok : Option String)
    (iso : String) (c : TokenCache) (t : List TokenRequest)
    (upstream : Bool → AxiosResult String) :
    (doUpstream reg cfg tok iso c t upstream).upstreamCalls =
      [mkUpstreamRequest tok cfg.apiKey reg] := by
  simp only [doUpstream]
  cases upstream true with
  | ok st d => rfl
  | httpError st sT d => exact catchBlock_upstreamCalls ..
  | timeout => exact catchBlock_upstreamCalls ..
  | netError m => exact catchBlock_upstreamCalls ..

theorem doUpstream_tokenCalls (reg : String) (cfg : Config) (tok : Option String)
    (iso : String) (c : TokenCache) (t : List TokenRequest)
    (upstream : Bool → AxiosResult String) :
    (doUpstream reg cfg tok iso c t upstream).tokenCalls = t := by
  simp only [doUpstream]
  cases upstream true with
  | ok st d => rfl
  | httpError st sT d => exact catchBlock_tokenCalls ..
  | timeout => exact catchBlock_tokenCalls ..
  | netError m => exact catchBlock_tokenCalls ..

theorem motLookup_invalid {raw : String} (cfg : Config) (c0 : TokenCache) (now : Int)
    (iso : String) (tr atr : AxiosResult TokenBody) (upstream : Bool → AxiosResult String)
    (hv : validateRegistration (normalizeRegistration raw) = false) :
    motLookup raw cfg c0 now iso tr atr upstream =
      ⟨400, invalidRegBody (normalizeRegistration raw), c0, [], []⟩ := by
  simp [motLookup, hv]

theorem motLookup_configErr {raw : String} {cfg : Config} (c0 : TokenCache) (now : Int)
    (iso : String) (tr atr : AxiosResult TokenBody) (upstream : Bool → AxiosResult String)
    (hv : validateRegistration (normalizeRegistration raw) = true)
    (hc : configOk cfg = false) :
    motLookup raw cfg c0 now iso tr atr upstream = ⟨500, configErrorBody, c0, [], []⟩ := by
  simp [motLookup, hv, hc]

theorem motLookup_tokenOk {raw : String} {cfg : Config} {c0 : TokenCache} {now : Int}
    (iso : String) {tr : AxiosResult TokenBody} (atr : AxiosResult TokenBody)
    (upstream : Bool → AxiosResult String) {tok : Option String}
    (hv : validateRegistration (normalizeRegistration raw) = true)
    (hc : configOk cfg = true)
    (hs : (getAccessToken now c0 cfg tr).result = .ok tok) :
    motLookup raw cfg c0 now iso tr atr upstream =
      doUpstream (normalizeRegistration raw) cfg tok iso
        (getAccessToken now c0 cfg tr).cache (getAccessToken now c0 cfg tr).calls
        upstream := by
  simp [motLookup, hv, hc, hs]

theorem motLookup_altOk {raw : String} {cfg : Config} {c0 : TokenCache} {now : Int}
    (iso : String) {tr atr : AxiosResult TokenBody}
    (upstream : Bool → AxiosResult String) {e1 : JsError} {tok : Option String}
    (hv : validateRegistration (normalizeRegistration raw) = true)
    (hc : configOk cfg = true)
    (hs1 : (getAccessToken now c0 cfg tr).result = .thrown e1)
    (hs2 : (getAccessTokenAlternative now cfg (getAccessToken now c0 cfg tr).cache
      atr).result = .ok tok) :
    motLookup raw cfg c0 now iso tr atr upstream =
      doUpstream (normalizeRegistration raw) cfg tok iso
        (getAccessTokenAlternative now cfg (getAccessToken now c0 cfg tr).cache atr).cache
        ((getAccessToken now c0 cfg tr).calls ++
          (getAccessTokenAlternative now cfg (getAccessToken now c0 cfg tr).cache atr).calls)
        upstream := by
  simp [motLookup, hv, hc, hs1, hs2]

theorem motLookup_bothFail {raw : String} {cfg : Config} {c0 : TokenCache} {now : Int}
    (iso : String) {tr atr : AxiosResult TokenBody}
    (upstream : Bool → AxiosResult String) {e1 e2 : JsError}
    (hv : validateRegistration (normalizeRegistration raw) = true)
    (hc : configOk cfg = true)
    (hs1 : (getAccessToken now c0 cfg tr).result = .thrown e1)
    (hs2 : (getAccessTokenAlternative now cfg (getAccessToken now c0 cfg tr).cache
      atr).result = .thrown e2) :
    motLookup raw cfg c0 now iso tr atr upstream =
      catchBlock (normalizeRegistration raw) e1
        (getAccessTokenAlternative now cfg (getAccessToken now c0 cfg tr).cache atr).cache
        ((getAccessToken now c0 cfg tr).calls ++
          (getAccessTokenAlternative now cfg (getAccessToken now c0 cfg tr).cache atr).calls)
        [] := by
  simp [motLookup, hv, hc, hs1, hs2]

theorem doUpstream_httpError {upstream : Bool → AxiosResult String}
    {st : Nat} {sT : String} {d : Option ErrData}
    (reg : String) (cfg : Config) (tok : Option String) (iso : String)
    (c : TokenCache) (t : List TokenRequest)
    (h : upstream true = .httpError st sT d) :
    doUpstream reg cfg tok iso c t upstream =
      catchBlock reg (.axiosHttp st sT d) c t [mkUpstreamRequest tok cfg.apiKey reg] := by
  simp [doUpstream, h]

theorem tokenGet_empty (t : Int) : tokenGet t emptyTokenCache = none := by
  simp [tokenGet, emptyTokenCache, cacheHit]

/-- Whenever the handler issued an upstream GET at all, it ran the
`doUpstream` step with some bearer token. -/
theorem motLookup_called (raw : String) (cfg : Config) (c0 : TokenCache) (now : Int)
    (iso : String) (tr atr : AxiosResult TokenBody)
    (upstream : Bool → AxiosResult String)
    (hcall : (motLookup raw cfg c0 now iso tr atr upstream).upstreamCalls ≠ []) :
    ∃ tok c t, motLookup raw cfg c0 now iso tr atr upstream =
      doUpstream (normalizeRegistration raw) cfg tok iso c t upstream := by
  cases hv : validateRegistration (normalizeRegistration raw) with
  | false => simp [motLookup_invalid cfg c0 now iso tr atr upstream hv] at hcall
  | true =>
    cases hc : configOk cfg with
    | false => simp [motLookup_configErr c0 now iso tr atr upstream hv hc] at hcall
    | true =>
      cases hs1 : (getAccessToken now c0 cfg tr).result with
      | ok tok => exact ⟨tok, _, _, motLookup_tokenOk iso atr upstream hv hc hs1⟩
      | thrown e1 =>
        cases hs2 : (getAccessTokenAlternative now cfg
            (getAccessToken now c0 cfg tr).cache atr).result with
        | ok tok => exact ⟨tok, _, _, motLookup_altOk iso upstream hv hc hs1 hs2⟩
        | thrown e2 =>
          rw [motLookup_bothFail iso upstream hv hc hs1 hs2] at hcall
          simp [catchBlock_upstreamCalls] at hcall

/-- A 401 or 403 from the upstream GET gives the 500 "Authentication failed"
response, clears the token cache, and issues no second upstream request. -/
theorem motLookup_upstream_auth (raw : String) (cfg : Config) (c0 : TokenCache)
    (now : Int) (iso : String) (tr atr : AxiosResult TokenBody)
    (upstream : Bool → AxiosResult String) {st : Nat} {sT : String}
    {d : Option ErrData}
    (hst : st = 401 ∨ st = 403) (hup : upstream true = .httpError st sT d)
    (hcall : (motLookup raw cfg c0 now iso tr atr upstream).upstreamCalls ≠ []) :
    (motLookup raw cfg c0 now iso tr atr upstream).status = 500 ∧
    (motLookup raw cfg c0 now iso tr atr upstream).body =
      authFailedBody (normalizeRegistration raw) d ∧
    (motLookup raw cfg c0 now iso tr atr upstream).cache = emptyTokenCache ∧
    ∃ tok, (motLookup raw cfg c0 now iso tr atr upstream).upstreamCalls =
      [mkUpstreamRequest tok cfg.apiKey (normalizeRegistration raw)] := by
  obtain ⟨tok, c, t, heq⟩ :=
    motLookup_called raw cfg c0 now iso tr atr upstream hcall
  rw [heq, doUpstream_httpError _ _ _ _ _ _ hup, catchBlock_auth hst]
  exact ⟨rfl, rfl, rfl, tok, rfl⟩

/-! ## Claims -/

/-- **C3** (counterexample): the claim "`get()` returns the cached token
exactly when `now < expiresAt`" is false as stated.  Storing the empty-string
token with `ttl = 3600` s at time 0 gives `expiresAt = 3540000` ms, yet
`get()` at `now = 1000 < expiresAt` returns absent, because line 43 of
`server.js` tests JS truthiness of `accessToken` and `""` is falsy. -/
theorem c3_counterexample :
    (tokenSet 0 "" 3600).expiresAt = some (JsNum.num 3540000) ∧
    ((1000 : Int) < 3540000) ∧
    tokenGet 1000 (tokenSet 0 "" 3600) = none := by
  decide

/-- **C3** (amended): for every non-empty token value, `set(value, ttlSeconds)`
stores `expiresAt = now + ttlSeconds - safetyMargin` (60 s, in ms);
for `ttl` above the margin and a set-time `≥ 0`, `get()` immediately after
`set()` returns the token, and `get()` returns the token exactly when
`now < expiresAt` (hence absent at every `now ≥ expiresAt`). -/
theorem c3_token_store (v : String) (ttl now0 now : Int)
    (hv : v ≠ "") (httl : 60 < ttl) (h0 : 0 ≤ now0) :
    (tokenSet now0 v ttl).expiresAt = some (JsNum.num (now0 + ttl * 1000 - 60000)) ∧
    tokenGet now0 (tokenSet now0 v ttl) = some v ∧
    (tokenGet now (tokenSet now0 v ttl) = some v ↔ now < now0 + ttl * 1000 - 60000) := by
  have he : (0 : Int) < now0 + ttl * 1000 - 60000 := by omega
  refine ⟨rfl, ?_, ?_⟩
  · simp only [tokenGet, tokenSet, cacheHit, jsNumTruthy, jsLtNum]
    simp
    exact ⟨hv, by omega, by omega⟩
  · simp only [tokenGet, tokenSet, cacheHit, jsNumTruthy, jsLtNum]
    by_cases hlt : now < now0 + ttl * 1000 - 60000
    · simp [hlt]
      exact ⟨hv, by omega⟩
    · simp [hlt]

/-- Witness for the amended C3 at `v = "tok"`, `ttl = 3600`, set at 0,
read back at 1000. -/
theorem c3_token_store_witness :
    (tokenSet 0 "tok" 3600).expiresAt = some (JsNum.num 3540000) ∧
    tokenGet 0 (tokenSet 0 "tok" 3600) = some "tok" ∧
    (tokenGet 1000 (tokenSet 0 "tok" 3600) = some "tok" ↔ (1000 : Int) < 3540000) := by
  have h := c3_token_store "tok" 3600 0 1000 (by decide) (by decide) (by decide)
  simpa using h

/-- **C4**: whenever the line-43 validity test passes, `getAccessToken`
performs zero network calls, leaves the cache unchanged, and returns the
cached token; and after any successful exchange storing a non-empty token
with `expires_in > 60` s (at `now ≥ 0`), a second call is such a cache hit,
so it issues no further token-endpoint request. -/
theorem c4_acquire_idempotent (now : Int) (c : TokenCache) (cfg : Config)
    (resp : AxiosResult TokenBody) (h : cacheHit now c = true) :
    getAccessToken now c cfg resp = ⟨.ok c.accessToken, c, []⟩ ∧
    ∀ (c0 : TokenCache) (t : String) (n : Int) (st : Nat) (resp2 : AxiosResult TokenBody),
      cacheHit now c0 = false → t ≠ "" → 60 < n → 0 ≤ now →
      (getAccessToken now c0 cfg (.ok st ⟨some t, some n⟩)).result = .ok (some t) ∧
      getAccessToken now (getAccessToken now c0 cfg (.ok st ⟨some t, some n⟩)).cache cfg
          resp2 =
        ⟨.ok (some t), (getAccessToken now c0 cfg (.ok st ⟨some t, some n⟩)).cache, []⟩ := by
  constructor
  · simp [getAccessToken, h]
  · intro c0 t n st resp2 hmiss ht hn hnow
    have hcache : getAccessToken now c0 cfg (.ok st ⟨some t, some n⟩) =
        ⟨.ok (some t), ⟨some t, some (.num (now + n * 1000 - 60000))⟩,
          [standardTokenRequest cfg]⟩ := by
      simp [getAccessToken, hmiss, jsExpiryMs, jsAddExpiry]
    refine ⟨by rw [hcache], ?_⟩
    rw [hcache]
    have hhit : cacheHit now ⟨some t, some (.num (now + n * 1000 - 60000))⟩ = true := by
      simp [cacheHit, jsNumTruthy, jsLtNum, ht]
      omega
    simp [getAccessToken, hhit]

/-- Witness for C4: a concrete hit after a fresh exchange. -/
theorem c4_acquire_idempotent_witness :
    getAccessToken 0 ⟨some "tok", some (JsNum.num 100)⟩
        ⟨some "i", some "s", some "k", some "u", "sc"⟩ .timeout =
      ⟨.ok (some "tok"), ⟨some "tok", some (JsNum.num 100)⟩, []⟩ ∧
    getAccessToken 0
        (getAccessToken 0 emptyTokenCache ⟨some "i", some "s", some "k", some "u", "sc"⟩
          (.ok 200 ⟨some "fresh", some 3600⟩)).cache
        ⟨some "i", some "s", some "k", some "u", "sc"⟩ .timeout =
      ⟨.ok (some "fresh"),
        (getAccessToken 0 emptyTokenCache ⟨some "i", some "s", some "k", some "u", "sc"⟩
          (.ok 200 ⟨some "fresh", some 3600⟩)).cache, []⟩ := by
  have h := c4_acquire_idempotent 0 ⟨some "tok", some (JsNum.num 100)⟩
    ⟨some "i", some "s", some "k", some "u", "sc"⟩ .timeout (by decide)
  exact ⟨h.1, (h.2 emptyTokenCache "fresh" 3600 200 .timeout (by decide) (by decide)
    (by decide) (by decide)).2⟩

/-- **C1** (counterexample): the claim that every lookup retries a 403 once
without the `x-api-key` header is false for the main `/api/mot` handler.
Concrete run: token exchange succeeds, the with-key GET returns 403, and the
no-key GET would return 200 — yet the handler issues exactly one upstream
request (the with-key one), never retries, and answers 500
"Authentication failed" instead of success. -/
theorem c1_counterexample :
    motLookup "AB12CDE" ⟨some "id", some "sec", some "key", some "url", "scope"⟩
        emptyTokenCache 0 "2026-01-01T00:00:00.000Z"
        (.ok 200 ⟨some "tok", some 3600⟩) (.ok 200 ⟨some "tok", some 3600⟩)
        (fun withKey => if withKey then .httpError 403 "Forbidden" none
          else .ok 200 "MOTDATA") =
      ⟨500, authFailedBody "AB12CDE" none, emptyTokenCache,
        [standardTokenRequest ⟨some "id", some "sec", some "key", some "url", "scope"⟩],
        [mkUpstreamRequest (some "tok") (some "key") "AB12CDE"]⟩ := by
  rfl

/-- **C1** (amended): the 403-triggered no-key retry exists only in the
`/test-scopes` diagnostic endpoint.  There, a 403 on the with-key GET triggers
exactly one retry that is the identical GET with the `x-api-key` header
omitted; a 200 retry is recorded as success, and a failing retry's error
(its status) is what the retry record carries, not the original 403.  In the
main `/api/mot` lookup a 403 triggers no retry: the handler makes exactly one
upstream request and returns 500 "Authentication failed". -/
theorem c1_fallback_403 (tok apiKey : Option String) (reg sT : String)
    (d : Option ErrData) (upstream : Bool → AxiosResult String)
    (h403 : upstream true = .httpError 403 sT d) :
    (scopeApiTest tok apiKey reg upstream).calls =
      [mkScopeRequest tok apiKey reg, mkScopeRequest tok none reg] ∧
    mkScopeRequest tok none reg =
      { mkScopeRequest tok apiKey reg with xApiKey := none } ∧
    (scopeApiTest tok apiKey reg upstream).withApiKey =
      ⟨false, some 403, some "Request failed with status code 403"⟩ ∧
    (scopeApiTest tok apiKey reg upstream).withoutApiKey =
      some (noKeyAttemptRec (upstream false)) ∧
    (∀ st2 d2, upstream false = .ok st2 d2 →
      (scopeApiTest tok apiKey reg upstream).withoutApiKey =
        some ⟨true, some st2, none⟩) ∧
    (∀ st2 sT2 d2, upstream false = .httpError st2 sT2 d2 →
      (scopeApiTest tok apiKey reg upstream).withoutApiKey =
        some ⟨false, some st2,
          some ("Request failed with status code " ++ toString st2)⟩) ∧
    (∀ raw cfg c0 now iso tr atr,
      (motLookup raw cfg c0 now iso tr atr upstream).upstreamCalls ≠ [] →
      (motLookup raw cfg c0 now iso tr atr upstream).upstreamCalls.length = 1 ∧
      (motLookup raw cfg c0 now iso tr atr upstream).status = 500 ∧
      (motLookup raw cfg c0 now iso tr atr upstream).body.error =
        some "Authentication failed") := by
  refine ⟨by simp [scopeApiTest, h403], rfl,
    by simp [scopeApiTest, h403]; decide,
    by simp [scopeApiTest, h403], ?_, ?_, ?_⟩
  · intro st2 d2 h
    simp [scopeApiTest, h403, noKeyAttemptRec, h]
  · intro st2 sT2 d2 h
    simp [scopeApiTest, h403, noKeyAttemptRec, h, responseStatus, axiosErrMessage]
  · intro raw cfg c0 now iso tr atr hcall
    obtain ⟨h1, h2, _, tok2, h4⟩ := motLookup_upstream_auth raw cfg c0 now iso tr atr
      upstream (Or.inr rfl) h403 hcall
    refine ⟨by rw [h4]; rfl, h1, by rw [h2]; rfl⟩

/-- Witness for the amended C1 at a concrete oracle whose with-key call
returns 403 and whose no-key call returns 200. -/
theorem c1_fallback_403_witness :
    (scopeApiTest (some "tok") (some "key") "AB12CDE"
        (fun withKey => if withKey then .httpError 403 "Forbidden" none
          else .ok 200 "MOTDATA")).calls =
      [mkScopeRequest (some "tok") (some "key") "AB12CDE",
        mkScopeRequest (some "tok") none "AB12CDE"] ∧
    (scopeApiTest (some "tok") (some "key") "AB12CDE"
        (fun withKey => if withKey then .httpError 403 "Forbidden" none
          else .ok 200 "MOTDATA")).withoutApiKey =
      some ⟨true, some 200, none⟩ := by
  have h := c1_fallback_403 (some "tok") (some "key") "AB12CDE" "Forbidden" none
    (fun withKey => if withKey then .httpError 403 "Forbidden" none
      else .ok 200 "MOTDATA") rfl
  exact ⟨h.1, h.2.2.2.2.1 200 "MOTDATA" rfl⟩

/-- **C2**: a 401 from the upstream GET triggers no no-key retry (the single
upstream request carries the configured `x-api-key`), clears the token cache
(so any later `get()` returns absent), and is surfaced as the 500
"Authentication failed" response. -/
theorem c2_no_fallback_on_401 (raw : String) (cfg : Config) (c0 : TokenCache)
    (now : Int) (iso sT : String) (d : Option ErrData)
    (tr atr : AxiosResult TokenBody) (upstream : Bool → AxiosResult String)
    (hup : upstream true = .httpError 401 sT d)
    (hcall : (motLookup raw cfg c0 now iso tr atr upstream).upstreamCalls ≠ []) :
    (motLookup raw cfg c0 now iso tr atr upstream).status = 500 ∧
    (motLookup raw cfg c0 now iso tr atr upstream).body.error =
      some "Authentication failed" ∧
    (motLookup raw cfg c0 now iso tr atr upstream).upstreamCalls.length = 1 ∧
    (∀ r ∈ (motLookup raw cfg c0 now iso tr atr upstream).upstreamCalls,
      r.xApiKey = cfg.apiKey) ∧
    (motLookup raw cfg c0 now iso tr atr upstream).cache = emptyTokenCache ∧
    ∀ t, tokenGet t (motLookup raw cfg c0 now iso tr atr upstream).cache = none := by
  obtain ⟨h1, h2, h3, tok, h4⟩ := motLookup_upstream_auth raw cfg c0 now iso tr atr
    upstream (Or.inl rfl) hup hcall
  refine ⟨h1, by rw [h2]; rfl, by rw [h4]; rfl, ?_, h3, ?_⟩
  · intro r hr
    rw [h4] at hr
    simp at hr
    subst hr
    rfl
  · intro t
    rw [h3]
    exact tokenGet_empty t

/-- Witness for C2 at a concrete 401 run. -/
theorem c2_no_fallback_on_401_witness :
    (motLookup "AB12CDE" ⟨some "id", some "sec", some "key", some "url", "scope"⟩
        emptyTokenCache 0 "T" (.ok 200 ⟨some "tok", some 3600⟩)
        (.ok 200 ⟨some "tok", some 3600⟩)
        (fun _ => .httpError 401 "Unauthorized" none)).status = 500 ∧
    (motLookup "AB12CDE" ⟨some "id", some "sec", some "key", some "url", "scope"⟩
        emptyTokenCache 0 "T" (.ok 200 ⟨some "tok", some 3600⟩)
        (.ok 200 ⟨some "tok", some 3600⟩)
        (fun _ => .httpError 401 "Unauthorized" none)).cache = emptyTokenCache := by
  have h := c2_no_fallback_on_401 "AB12CDE"
    ⟨some "id", some "sec", some "key", some "url", "scope"⟩ emptyTokenCache 0 "T"
    "Unauthorized" none (.ok 200 ⟨some "tok", some 3600⟩)
    (.ok 200 ⟨some "tok", some 3600⟩)
    (fun _ => .httpError 401 "Unauthorized" none) rfl (by decide)
  exact ⟨h.1, h.2.2.2.2.1⟩

/-- **C7**: the registration is uppercased and whitespace-stripped before use;
the three sample inputs normalize to `"AB12CDE"`, and equal normal forms give
identical upstream requests (in particular the same `registration` query
parameter). -/
theorem c7_normalization :
    normalizeRegistration "ab12 cde" = "AB12CDE" ∧
    normalizeRegistration "AB12CDE" = "AB12CDE" ∧
    normalizeRegistration " AB12CDE " = "AB12CDE" ∧
    ∀ (tok key : Option String),
      mkUpstreamRequest tok key (normalizeRegistration "ab12 cde") =
        mkUpstreamRequest tok key (normalizeRegistration " AB12CDE ") ∧
      (mkUpstreamRequest tok key (normalizeRegistration "ab12 cde")).registration =
        "AB12CDE" := by
  refine ⟨by decide, by decide, by decide, fun tok key => ⟨?_, ?_⟩⟩
  · have h : normalizeRegistration "ab12 cde" = normalizeRegistration " AB12CDE " := by
      decide
    rw [h]
  · have h : normalizeRegistration "ab12 cde" = "AB12CDE" := by decide
    rw [mkUpstreamRequest, h]

/-- **C5** (counterexample): the claim that every failed token exchange makes
the lookup return HTTP 500 with no upstream data call is false.  Concrete
run: the standard exchange fails with HTTP 400 (bad client secret), but the
alternative Basic-auth exchange succeeds, so the lookup proceeds, issues the
upstream GET, returns 200, and the token store holds the alternative token. -/
theorem c5_counterexample :
    (motLookup "AB12CDE" ⟨some "id", some "sec", some "key", some "url", "scope"⟩
        emptyTokenCache 0 "T"
        (.httpError 400 "Bad Request" (some ⟨some "invalid_client", none, none⟩))
        (.ok 200 ⟨some "alt", some 3600⟩) (fun _ => .ok 200 "DATA")).status = 200 ∧
    (motLookup "AB12CDE" ⟨some "id", some "sec", some "key", some "url", "scope"⟩
        emptyTokenCache 0 "T"
        (.httpError 400 "Bad Request" (some ⟨some "invalid_client", none, none⟩))
        (.ok 200 ⟨some "alt", some 3600⟩)
        (fun _ => .ok 200 "DATA")).upstreamCalls.length = 1 ∧
    (motLookup "AB12CDE" ⟨some "id", some "sec", some "key", some "url", "scope"⟩
        emptyTokenCache 0 "T"
        (.httpError 400 "Bad Request" (some ⟨some "invalid_client", none, none⟩))
        (.ok 200 ⟨some "alt", some 3600⟩)
        (fun _ => .ok 200 "DATA")).cache.accessToken = some "alt" := by
  decide

/-- **C5** (amended): for every token exchange failing with a network error or
a non-2xx status (a miss in the cache, so the exchange really ran),
`getAccessToken` clears the token cache and throws a plain authentication
error; if the alternative exchange then also fails, the lookup answers
HTTP 500 with no upstream data call attempted and the token store empty
(every later `get()` is absent).  A 2xx token response with a malformed body
is not treated as a failure, and a successful alternative exchange lets the
lookup proceed. -/
theorem c5_token_failure (raw : String) (cfg : Config) (c0 : TokenCache)
    (now : Int) (iso : String) (tr atr : AxiosResult TokenBody)
    (upstream : Bool → AxiosResult String)
    (hv : validateRegistration (normalizeRegistration raw) = true)
    (hc : configOk cfg = true)
    (hmiss : cacheHit now c0 = false)
    (hfail : ∀ st b, tr ≠ .ok st b) :
    (∃ m, (getAccessToken now c0 cfg tr).result = .thrown (.plainError m)) ∧
    (getAccessToken now c0 cfg tr).cache = emptyTokenCache ∧
    ((∀ st b, atr ≠ .ok st b) →
      (motLookup raw cfg c0 now iso tr atr upstream).status = 500 ∧
      (motLookup raw cfg c0 now iso tr atr upstream).upstreamCalls = [] ∧
      (motLookup raw cfg c0 now iso tr atr upstream).cache = emptyTokenCache ∧
      ∀ t, tokenGet t (motLookup raw cfg c0 now iso tr atr upstream).cache = none) := by
  have hstep : ∃ m, getAccessToken now c0 cfg tr =
      ⟨.thrown (.plainError m), emptyTokenCache, [standardTokenRequest cfg]⟩ := by
    cases tr with
    | ok st b => exact absurd rfl (hfail st b)
    | httpError st sT d =>
        exact ⟨tokenErrMessage st sT d, by simp [getAccessToken, hmiss]⟩
    | timeout =>
        exact ⟨"Failed to authenticate with DVSA API", by simp [getAccessToken, hmiss]⟩
    | netError m =>
        exact ⟨"Failed to authenticate with DVSA API", by simp [getAccessToken, hmiss]⟩
  obtain ⟨m, hm⟩ := hstep
  refine ⟨⟨m, by rw [hm]⟩, by rw [hm], ?_⟩
  intro hafail
  have hs1 : (getAccessToken now c0 cfg tr).result = .thrown (.plainError m) := by
    rw [hm]
  have hs2e : ∃ e2, (getAccessTokenAlternative now cfg
        (getAccessToken now c0 cfg tr).cache atr).result = .thrown e2 ∧
      (getAccessTokenAlternative now cfg (getAccessToken now c0 cfg tr).cache
          atr).cache = (getAccessToken now c0 cfg tr).cache := by
    cases atr with
    | ok st b => exact absurd rfl (hafail st b)
    | httpError st sT d => exact ⟨_, rfl, rfl⟩
    | timeout => exact ⟨_, rfl, rfl⟩
    | netError m2 => exact ⟨_, rfl, rfl⟩
  obtain ⟨e2, hs2, hs2c⟩ := hs2e
  rw [motLookup_bothFail iso upstream hv hc hs1 hs2]
  have hcache : (getAccessTokenAlternative now cfg
      (getAccessToken now c0 cfg tr).cache atr).cache = emptyTokenCache := by
    rw [hs2c, hm]
  refine ⟨rfl, rfl, ?_, ?_⟩
  · simp only [catchBlock]
    exact hcache
  · intro t
    simp only [catchBlock]
    rw [hcache]
    exact tokenGet_empty t

/-- Witness for the amended C5: standard exchange 400, alternative 401. -/
theorem c5_token_failure_witness :
    (motLookup "AB12CDE" ⟨some "id", some "sec", some "key", some "url", "scope"⟩
        emptyTokenCache 0 "T"
        (.httpError 400 "Bad Request" (some ⟨some "invalid_client", none, none⟩))
        (.httpError 401 "Unauthorized" none) (fun _ => .ok 200 "DATA")).status = 500 ∧
    (motLookup "AB12CDE" ⟨some "id", some "sec", some "key", some "url", "scope"⟩
        emptyTokenCache 0 "T"
        (.httpError 400 "Bad Request" (some ⟨some "invalid_client", none, none⟩))
        (.httpError 401 "Unauthorized" none)
        (fun _ => .ok 200 "DATA")).upstreamCalls = [] := by
  have h := c5_token_failure "AB12CDE"
    ⟨some "id", some "sec", some "key", some "url", "scope"⟩ emptyTokenCache 0 "T"
    (.httpError 400 "Bad Request" (some ⟨some "invalid_client", none, none⟩))
    (.httpError 401 "Unauthorized" none) (fun _ => .ok 200 "DATA")
    (by decide) (by decide) (by decide)
    (by intro st b hx; exact AxiosResult.noConfusion hx)
  have h3 := h.2.2 (by intro st b hx; exact AxiosResult.noConfusion hx)
  exact ⟨h3.1, h3.2.1⟩

/-- **C6** (counterexample): the claim that every failure status other than
404 and timeout yields a generic HTTP 500 is false: an upstream 429 is
answered with HTTP 429 "Rate limit exceeded", not 500. -/
theorem c6_counterexample :
    (motLookup "AB12CDE" ⟨some "id", some "sec", some "key", some "url", "scope"⟩
        emptyTokenCache 0 "T" (.ok 200 ⟨some "tok", some 3600⟩)
        (.ok 200 ⟨some "tok", some 3600⟩)
        (fun _ => .httpError 429 "Too Many Requests" none)).status = 429 ∧
    (motLookup "AB12CDE" ⟨some "id", some "sec", some "key", some "url", "scope"⟩
        emptyTokenCache 0 "T" (.ok 200 ⟨some "tok", some 3600⟩)
        (.ok 200 ⟨some "tok", some 3600⟩)
        (fun _ => .httpError 429 "Too Many Requests" none)).body.error =
      some "Rate limit exceeded" ∧
    (motLookup "AB12CDE" ⟨some "id", some "sec", some "key", some "url", "scope"⟩
        emptyTokenCache 0 "T" (.ok 200 ⟨some "tok", some 3600⟩)
        (.ok 200 ⟨some "tok", some 3600⟩)
        (fun _ => .httpError 429 "Too Many Requests" none)).status ≠ 500 := by
  decide

/-- **C6** (amended): for every run that reaches the upstream GET, a 2xx
yields the `{success, data, registration, timestamp}` envelope with HTTP 200;
404 yields HTTP 404 "Vehicle not found" with the registration; a timeout
yields HTTP 408 "Request timeout"; 401/403 yield HTTP 500 "Authentication
failed"; 429 yields HTTP 429 "Rate limit exceeded"; and every other failure
status yields HTTP 500 "API request failed". -/
theorem c6_classification (raw : String) (cfg : Config) (c0 : TokenCache)
    (now : Int) (iso : String) (tr atr : AxiosResult TokenBody)
    (upstream : Bool → AxiosResult String)
    (hcall : (motLookup raw cfg c0 now iso tr atr upstream).upstreamCalls ≠ []) :
    (∀ st d, upstream true = .ok st d →
      (motLookup raw cfg c0 now iso tr atr upstream).status = 200 ∧
      (motLookup raw cfg c0 now iso tr atr upstream).body =
        successBody d (normalizeRegistration raw) iso) ∧
    (∀ sT d, upstream true = .httpError 404 sT d →
      (motLookup raw cfg c0 now iso tr atr upstream).status = 404 ∧
      (motLookup raw cfg c0 now iso tr atr upstream).body =
        notFoundBody (normalizeRegistration raw)) ∧
    (upstream true = .timeout →
      (motLookup raw cfg c0 now iso tr atr upstream).status = 408 ∧
      (motLookup raw cfg c0 now iso tr atr upstream).body =
        timeoutBody (normalizeRegistration raw)) ∧
    (∀ st sT d, upstream true = .httpError st sT d → st = 401 ∨ st = 403 →
      (motLookup raw cfg c0 now iso tr atr upstream).status = 500 ∧
      (motLookup raw cfg c0 now iso tr atr upstream).body =
        authFailedBody (normalizeRegistration raw) d) ∧
    (∀ sT d, upstream true = .httpError 429 sT d →
      (motLookup raw cfg c0 now iso tr atr upstream).status = 429 ∧
      (motLookup raw cfg c0 now iso tr atr upstream).body =
        rateLimitBody (normalizeRegistration raw)) ∧
    (∀ st sT d, upstream true = .httpError st sT d →
      st ≠ 404 → st ≠ 401 → st ≠ 403 → st ≠ 429 →
      (motLookup raw cfg c0 now iso tr atr upstream).status = 500 ∧
      (motLookup raw cfg c0 now iso tr atr upstream).body =
        apiFailedBody (normalizeRegistration raw) st d) := by
  obtain ⟨tok, c, t, heq⟩ :=
    motLookup_called raw cfg c0 now iso tr atr upstream hcall
  rw [heq]
  refine ⟨?_, ?_, ?_, ?_, ?_, ?_⟩
  · intro st d h
    rw [doUpstream_ok _ _ _ _ _ _ h]
    exact ⟨rfl, rfl⟩
  · intro sT d h
    rw [doUpstream_httpError _ _ _ _ _ _ h]
    exact ⟨rfl, rfl⟩
  · intro h
    rw [doUpstream_timeout _ _ _ _ _ _ h]
    exact ⟨rfl, rfl⟩
  · intro st sT d h hst
    rw [doUpstream_httpError _ _ _ _ _ _ h, catchBlock_auth hst]
    exact ⟨rfl, rfl⟩
  · intro sT d h
    rw [doUpstream_httpError _ _ _ _ _ _ h]
    exact ⟨rfl, rfl⟩
  · intro st sT d h h404 h401 h403 h429
    rw [doUpstream_httpError _ _ _ _ _ _ h]
    simp only [catchBlock, h404, h401, h403, h429, if_false]
    simp [h404, h401, h403, h429]

/-- Witness for the amended C6: the 200 case at a concrete run. -/
theorem c6_classification_witness :
    (motLookup "AB12CDE" ⟨some "id", some "sec", some "key", some "url", "scope"⟩
        emptyTokenCache 0 "T" (.ok 200 ⟨some "tok", some 3600⟩)
        (.ok 200 ⟨some "tok", some 3600⟩) (fun _ => .ok 200 "DATA")).status = 200 ∧
    (motLookup "AB12CDE" ⟨some "id", some "sec", some "key", some "url", "scope"⟩
        emptyTokenCache 0 "T" (.ok 200 ⟨some "tok", some 3600⟩)
        (.ok 200 ⟨some "tok", some 3600⟩) (fun _ => .ok 200 "DATA")).body =
      successBody "DATA" "AB12CDE" "T" := by
  have h := c6_classification "AB12CDE"
    ⟨some "id", some "sec", some "key", some "url", "scope"⟩ emptyTokenCache 0 "T"
    (.ok 200 ⟨some "tok", some 3600⟩) (.ok 200 ⟨some "tok", some 3600⟩)
    (fun _ => .ok 200 "DATA") (by decide)
  have h1 := h.1 200 "DATA" rfl
  have hr : normalizeRegistration "AB12CDE" = "AB12CDE" := by decide
  exact ⟨h1.1, by rw [h1.2, hr]⟩

/-- **C8** (code evaluation at the failing input): on an upstream 401 the
handler copies `errorData.error_description` from the raw upstream error body
into the `details` field of the response, so the response depends on the
upstream error payload — contradicting the claim (and the spec's "never leak
token/key material").  Two runs differing only in the upstream error body
produce different responses. -/
theorem c8_leak_eval :
    (motLookup "AB12CDE" ⟨some "id", some "sec", some "key", some "url", "scope"⟩
        emptyTokenCache 0 "T" (.ok 200 ⟨some "tok", some 3600⟩)
        (.ok 200 ⟨some "tok", some 3600⟩)
        (fun _ => .httpError 401 "Unauthorized"
          (some ⟨none, some "SECRET_token_material", none⟩))).body.details =
      some "SECRET_token_material" ∧
    (motLookup "AB12CDE" ⟨some "id", some "sec", some "key", some "url", "scope"⟩
        emptyTokenCache 0 "T" (.ok 200 ⟨some "tok", some 3600⟩)
        (.ok 200 ⟨some "tok", some 3600⟩)
        (fun _ => .httpError 401 "Unauthorized"
          (some ⟨none, some "SECRET_token_material", none⟩))).body ≠
      (motLookup "AB12CDE" ⟨some "id", some "sec", some "key", some "url", "scope"⟩
        emptyTokenCache 0 "T" (.ok 200 ⟨some "tok", some 3600⟩)
        (.ok 200 ⟨some "tok", some 3600⟩)
        (fun _ => .httpError 401 "Unauthorized"
          (some ⟨none, some "other", none⟩))).body := by
  decide

/-- **C9**: when the normalized registration matches none of the five
built-in patterns, the lookup answers HTTP 400 "Invalid registration format"
with the cache untouched and zero token-endpoint or upstream requests — for
every configuration, including a missing one, so the check precedes the
credential check, token acquisition and any network call; a matching
registration never receives that response. -/
theorem c9_validation_gate (raw : String) (cfg : Config) (c0 : TokenCache)
    (now : Int) (iso : String) (tr atr : AxiosResult TokenBody)
    (upstream : Bool → AxiosResult String) :
    (validateRegistration (normalizeRegistration raw) = false →
      motLookup raw cfg c0 now iso tr atr upstream =
        ⟨400, invalidRegBody (normalizeRegistration raw), c0, [], []⟩) ∧
    (validateRegistration (normalizeRegistration raw) = true →
      (motLookup raw cfg c0 now iso tr atr upstream).status ≠ 400 ∧
      (motLookup raw cfg c0 now iso tr atr upstream).body.error ≠
        some "Invalid registration format") := by
  have hcb : ∀ (reg : String) (e : JsError) (c : TokenCache)
      (t : List TokenRequest) (u : List UpstreamRequest),
      (catchBlock reg e c t u).status ≠ 400 ∧
      (catchBlock reg e c t u).body.error ≠ some "Invalid registration format" := by
    intro reg e c t u
    cases e with
    | axiosHttp st sT d =>
        simp only [catchBlock]
        split_ifs <;>
          exact ⟨by simp, by
            simp [notFoundBody, authFailedBody, rateLimitBody, apiFailedBody]⟩
    | axiosTimeout =>
        exact ⟨by simp [catchBlock], by simp [catchBlock, timeoutBody]⟩
    | axiosNet m =>
        exact ⟨by simp [catchBlock], by simp [catchBlock, internalErrorBody]⟩
    | plainError m =>
        exact ⟨by simp [catchBlock], by simp [catchBlock, internalErrorBody]⟩
  have hdo : ∀ (reg : String) (tok : Option String) (c : TokenCache)
      (t : List TokenRequest),
      (doUpstream reg cfg tok iso c t upstream).status ≠ 400 ∧
      (doUpstream reg cfg tok iso c t upstream).body.error ≠
        some "Invalid registration format" := by
    intro reg tok c t
    cases hup : upstream true with
    | ok st d =>
        rw [doUpstream_ok _ _ _ _ _ _ hup]
        exact ⟨by simp, by simp [successBody]⟩
    | httpError st sT d =>
        rw [doUpstream_httpError _ _ _ _ _ _ hup]
        exact hcb _ _ _ _ _
    | timeout =>
        rw [doUpstream_timeout _ _ _ _ _ _ hup]
        exact hcb _ _ _ _ _
    | netError m =>
        have : doUpstream reg cfg tok iso c t upstream =
            catchBlock reg (.axiosNet m) c t [mkUpstreamRequest tok cfg.apiKey reg] := by
          simp [doUpstream, hup]
        rw [this]
        exact hcb _ _ _ _ _
  refine ⟨fun hv => motLookup_invalid cfg c0 now iso tr atr upstream hv, fun hv => ?_⟩
  cases hc : configOk cfg with
  | false =>
      rw [motLookup_configErr c0 now iso tr atr upstream hv hc]
      exact ⟨by simp, by simp [configErrorBody]⟩
  | true =>
      cases hs1 : (getAccessToken now c0 cfg tr).result with
      | ok tok =>
          rw [motLookup_tokenOk iso atr upstream hv hc hs1]
          exact hdo _ _ _ _
      | thrown e1 =>
          cases hs2 : (getAccessTokenAlternative now cfg
              (getAccessToken now c0 cfg tr).cache atr).result with
          | ok tok =>
              rw [motLookup_altOk iso upstream hv hc hs1 hs2]
              exact hdo _ _ _ _
          | thrown e2 =>
              rw [motLookup_bothFail iso upstream hv hc hs1 hs2]
              exact hcb _ _ _ _ _

/-- Witness for C9: `"b4d reg!"` is rejected before any call even with an
unconfigured credential set; `"AB12CDE"` is never rejected for format. -/
theorem c9_validation_gate_witness :
    motLookup "b4d reg!" ⟨none, none, none, none, "scope"⟩ emptyTokenCache 0 "T"
        .timeout .timeout (fun _ => .timeout) =
      ⟨400, invalidRegBody "B4DREG!", emptyTokenCache, [], []⟩ ∧
    (motLookup "AB12CDE" ⟨some "id", some "sec", some "key", some "url", "scope"⟩
        emptyTokenCache 0 "T" (.ok 200 ⟨some "tok", some 3600⟩)
        (.ok 200 ⟨some "tok", some 3600⟩) (fun _ => .ok 200 "DATA")).status ≠ 400 := by
  constructor
  · have h := (c9_validation_gate "b4d reg!" ⟨none, none, none, none, "scope"⟩
      emptyTokenCache 0 "T" .timeout .timeout (fun _ => .timeout)).1 (by decide)
    have hr : normalizeRegistration "b4d reg!" = "B4DREG!" := by decide
    rw [h, hr]
  · exact ((c9_validation_gate "AB12CDE"
      ⟨some "id", some "sec", some "key", some "url", "scope"⟩ emptyTokenCache 0 "T"
      (.ok 200 ⟨some "tok", some 3600⟩) (.ok 200 ⟨some "tok", some 3600⟩)
      (fun _ => .ok 200 "DATA")).2 (by decide)).1

/-- **C10**: whenever the standard token exchange fails, the handler attempts
exactly one alternative exchange whose request carries the client id and
secret via HTTP Basic auth and omits them from the form body; if it succeeds
its token is cached with the same 60-second (60000 ms) safety margin and used
as the bearer of the upstream GET; if it also fails, the original error's
message (not the alternative's) is surfaced in the 500 response. -/
theorem c10_alternative_auth (raw : String) (cfg : Config) (c0 : TokenCache)
    (now : Int) (iso : String) (tr atr : AxiosResult TokenBody)
    (upstream : Bool → AxiosResult String)
    (hv : validateRegistration (normalizeRegistration raw) = true)
    (hc : configOk cfg = true)
    (e1 : JsError)
    (hs1 : (getAccessToken now c0 cfg tr).result = .thrown e1) :
    (motLookup raw cfg c0 now iso tr atr upstream).tokenCalls =
      (getAccessToken now c0 cfg tr).calls ++ [altTokenRequest cfg] ∧
    (altTokenRequest cfg).basicAuth = some (cfg.clientId, cfg.clientSecret) ∧
    (altTokenRequest cfg).client_id = none ∧
    (altTokenRequest cfg).client_secret = none ∧
    (standardTokenRequest cfg).basicAuth = none ∧
    (standardTokenRequest cfg).client_id = cfg.clientId ∧
    (standardTokenRequest cfg).client_secret = cfg.clientSecret ∧
    (∀ st b, atr = .ok st b →
      (motLookup raw cfg c0 now iso tr atr upstream).upstreamCalls =
        [mkUpstreamRequest b.access_token cfg.apiKey (normalizeRegistration raw)] ∧
      ∀ n, b.expires_in = some n →
        (getAccessTokenAlternative now cfg (getAccessToken now c0 cfg tr).cache
            atr).cache =
          ⟨b.access_token, some (.num (now + n * 1000 - 60000))⟩) ∧
    ((∀ st b, atr ≠ .ok st b) → ∀ m, e1 = .plainError m →
      (motLookup raw cfg c0 now iso tr atr upstream).status = 500 ∧
      (motLookup raw cfg c0 now iso tr atr upstream).body.error =
        some "Internal server error" ∧
      (motLookup raw cfg c0 now iso tr atr upstream).body.details = some m ∧
      (motLookup raw cfg c0 now iso tr atr upstream).upstreamCalls = []) := by
  cases atr with
  | ok st b =>
      have hs2 : (getAccessTokenAlternative now cfg
          (getAccessToken now c0 cfg tr).cache (.ok st b)).result =
            .ok b.access_token := rfl
      have heq := motLookup_altOk iso upstream hv hc hs1 hs2
      refine ⟨?_, rfl, rfl, rfl, rfl, rfl, rfl, ?_, ?_⟩
      · rw [heq, doUpstream_tokenCalls]
        rfl
      · intro st2 b2 hb
        cases hb
        refine ⟨by rw [heq, doUpstream_upstreamCalls], ?_⟩
        intro n hn
        simp [getAccessTokenAlternative, jsExpiryMs, jsAddExpiry, hn]
      · intro hafail
        exact absurd rfl (hafail st b)
  | httpError st2 sT2 d2 =>
      have hs2 : (getAccessTokenAlternative now cfg
          (getAccessToken now c0 cfg tr).cache (.httpError st2 sT2 d2)).result =
            .thrown (.axiosHttp st2 sT2 d2) := rfl
      have heq := motLookup_bothFail iso upstream hv hc hs1 hs2
      refine ⟨by rw [heq, catchBlock_tokenCalls]; rfl, rfl, rfl, rfl, rfl, rfl, rfl, ?_, ?_⟩
      · intro st3 b3 hb
        exact absurd hb (by intro hx; exact AxiosResult.noConfusion hx)
      · intro _ m hm
        subst hm
        rw [heq]
        exact ⟨rfl, rfl, rfl, rfl⟩
  | timeout =>
      have hs2 : (getAccessTokenAlternative now cfg
          (getAccessToken now c0 cfg tr).cache .timeout).result =
            .thrown .axiosTimeout := rfl
      have heq := motLookup_bothFail iso upstream hv hc hs1 hs2
      refine ⟨by rw [heq, catchBlock_tokenCalls]; rfl, rfl, rfl, rfl, rfl, rfl, rfl, ?_, ?_⟩
      · intro st3 b3 hb
        exact absurd hb (by intro hx; exact AxiosResult.noConfusion hx)
      · intro _ m hm
        subst hm
        rw [heq]
        exact ⟨rfl, rfl, rfl, rfl⟩
  | netError m2 =>
      have hs2 : (getAccessTokenAlternative now cfg
          (getAccessToken now c0 cfg tr).cache (.netError m2)).result =
            .thrown (.axiosNet m2) := rfl
      have heq := motLookup_bothFail iso upstream hv hc hs1 hs2
      refine ⟨by rw [heq, catchBlock_tokenCalls]; rfl, rfl, rfl, rfl, rfl, rfl, rfl, ?_, ?_⟩
      · intro st3 b3 hb
        exact absurd hb (by intro hx; exact AxiosResult.noConfusion hx)
      · intro _ m hm
        subst hm
        rw [heq]
        exact ⟨rfl, rfl, rfl, rfl⟩

/-- Witness for C10: standard exchange fails with 400, alternative succeeds;
the token is cached with expiry `0 + 3600*1000 - 60000`. -/
theorem c10_alternative_auth_witness :
    (motLookup "AB12CDE" ⟨some "id", some "sec", some "key", some "url", "scope"⟩
        emptyTokenCache 0 "T"
        (.httpError 400 "Bad Request" (some ⟨some "invalid_client", none, none⟩))
        (.ok 200 ⟨some "alt", some 3600⟩) (fun _ => .ok 200 "DATA")).tokenCalls =
      (getAccessToken 0 emptyTokenCache
          ⟨some "id", some "sec", some "key", some "url", "scope"⟩
          (.httpError 400 "Bad Request"
            (some ⟨some "invalid_client", none, none⟩))).calls ++
        [altTokenRequest ⟨some "id", some "sec", some "key", some "url", "scope"⟩] ∧
    (getAccessTokenAlternative 0
        ⟨some "id", some "sec", some "key", some "url", "scope"⟩
        (getAccessToken 0 emptyTokenCache
            ⟨some "id", some "sec", some "key", some "url", "scope"⟩
            (.httpError 400 "Bad Request"
              (some ⟨some "invalid_client", none, none⟩))).cache
        (.ok 200 ⟨some "alt", some 3600⟩)).cache =
      ⟨some "alt", some (.num 3540000)⟩ := by
  have h := c10_alternative_auth "AB12CDE"
    ⟨some "id", some "sec", some "key", some "url", "scope"⟩ emptyTokenCache 0 "T"
    (.httpError 400 "Bad Request" (some ⟨some "invalid_client", none, none⟩))
    (.ok 200 ⟨some "alt", some 3600⟩) (fun _ => .ok 200 "DATA")
    (by decide) (by decide)
    (.plainError (tokenErrMessage 400 "Bad Request"
      (some ⟨some "invalid_client", none, none⟩))) (by decide)
  have h8 := (h.2.2.2.2.2.2.2.1 200 ⟨some "alt", some 3600⟩ rfl).2 3600 rfl
  exact ⟨h.1, by rw [h8]; rfl⟩

end MotApi
